import Mathlib

/-!
Shallow embedding of the Mission Evaluator of `src/main.py`
(`calculate_mission_parameters` and the data model around it).

Python floats are modelled by exact rationals: every constant of the source
is an exact decimal fraction and all operations are field operations,
`min`, `max` and `abs`.

Python `datetime` values are modelled by their calendar fields together
with a proleptic-Gregorian ordinal (the same `_ymd2ord` computation CPython
uses), so that `datetime` subtraction and the floor-division `.days`
attribute of `timedelta` are represented faithfully.
-/

/-- Propulsion type: the closed enumeration of `MissionParameters.propulsion_type`
(`"chemical" | "ion" | "solar-sail"`). -/
inductive PropulsionType where
  | chemical
  | ion
  | solarSail
deriving DecidableEq

/-- Payload size: the closed enumeration of `MissionParameters.payload_size`
(`"small" | "medium" | "large"`). -/
inductive PayloadSize where
  | small
  | medium
  | large
deriving DecidableEq

/-- Input model of `MissionParameters` (src/main.py lines 41-44). -/
structure MissionParameters where
  launch_date : String
  propulsion_type : PropulsionType
  payload_size : PayloadSize
deriving DecidableEq

/-- Output model of `MissionResults` (src/main.py lines 46-52). -/
structure MissionResults where
  travel_time : ℚ
  delta_v : ℚ
  success_probability : ℚ
  mission_log : List String
  fuel_cost : ℚ
  mission_status : String
deriving DecidableEq

/-- A Python `datetime` value: calendar fields as stored by the object. -/
structure PyDateTime where
  year : ℕ
  month : ℕ
  day : ℕ
  hour : ℕ
  minute : ℕ
  second : ℕ
deriving DecidableEq

/-- Leap-year test of the proleptic Gregorian calendar (CPython `_is_leap`). -/
def _is_leap (y : ℕ) : Bool :=
  y % 4 == 0 && (y % 100 != 0 || y % 400 == 0)

/-- Cumulative day counts before each month in a non-leap year
(CPython `_DAYS_BEFORE_MONTH`). -/
def _DAYS_BEFORE_MONTH (m : ℕ) : ℕ :=
  match m with
  | 1 => 0
  | 2 => 31
  | 3 => 59
  | 4 => 90
  | 5 => 120
  | 6 => 151
  | 7 => 181
  | 8 => 212
  | 9 => 243
  | 10 => 273
  | 11 => 304
  | 12 => 334
  | _ => 0

/-- Days in the year preceding month `m` (CPython `_days_before_month`). -/
def _days_before_month (y m : ℕ) : ℕ :=
  _DAYS_BEFORE_MONTH m + (if 2 < m ∧ _is_leap y then 1 else 0)

/-- Number of days in month `m` of year `y` (CPython `_days_in_month`). -/
def _days_in_month (y m : ℕ) : ℕ :=
  if m = 2 then (if _is_leap y then 29 else 28)
  else if m = 4 ∨ m = 6 ∨ m = 9 ∨ m = 11 then 30
  else 31

/-- Proleptic Gregorian ordinal of a date, with day 1 = 0001-01-01
(CPython `_ymd2ord`). -/
def _ymd2ord (y m d : ℕ) : ℕ :=
  (y - 1) * 365 + (y - 1) / 4 - (y - 1) / 100 + (y - 1) / 400
    + _days_before_month y m + d

/-- A `datetime` as a number of seconds on the proleptic Gregorian time line;
`datetime` subtraction is subtraction of these values. -/
def toSeconds (t : PyDateTime) : ℤ :=
  (_ymd2ord t.year t.month t.day : ℤ) * 86400
    + (t.hour : ℤ) * 3600 + (t.minute : ℤ) * 60 + (t.second : ℤ)

/-- Digit value of a character, `none` when it is not an ASCII digit. -/
def digitVal (c : Char) : Option ℕ :=
  if c.isDigit then some (c.toNat - 48) else none

/-- Two-digit decimal field of an ISO date string. -/
def num2 (a b : Char) : Option ℕ :=
  match digitVal a, digitVal b with
  | some x, some y => some (10 * x + y)
  | _, _ => none

/-- Four-digit decimal field of an ISO date string. -/
def num4 (a b c d : Char) : Option ℕ :=
  match digitVal a, digitVal b, digitVal c, digitVal d with
  | some x, some y, some z, some w => some (1000 * x + 100 * y + 10 * z + w)
  | _, _, _, _ => none

/-- Range-check the calendar fields the way the `datetime` constructor does
(year 1..9999, month 1..12, day within the month, time fields in range). -/
def mkPyDateTime (y mo d h mi s : ℕ) : Option PyDateTime :=
  if 1 ≤ y ∧ y ≤ 9999 ∧ 1 ≤ mo ∧ mo ≤ 12 ∧ 1 ≤ d ∧ d ≤ _days_in_month y mo
      ∧ h ≤ 23 ∧ mi ≤ 59 ∧ s ≤ 59 then
    some ⟨y, mo, d, h, mi, s⟩
  else none

/-- Modelled from the spec: Python's `datetime.fromisoformat` (stdlib code not
in this repository), restricted to the shapes the spec names — format
`YYYY-MM-DD[ HH:MM[:SS]]` after the caller's separator replacement — with the
constructor's range validation; every other string fails. -/
def pyFromIsoFormat (s : String) : Option PyDateTime :=
  match s.data with
  | [y1, y2, y3, y4, '-', m1, m2, '-', d1, d2] =>
    match num4 y1 y2 y3 y4, num2 m1 m2, num2 d1 d2 with
    | some y, some mo, some d => mkPyDateTime y mo d 0 0 0
    | _, _, _ => none
  | [y1, y2, y3, y4, '-', m1, m2, '-', d1, d2, ' ', h1, h2, ':', n1, n2] =>
    match num4 y1 y2 y3 y4, num2 m1 m2, num2 d1 d2, num2 h1 h2, num2 n1 n2 with
    | some y, some mo, some d, some h, some mi => mkPyDateTime y mo d h mi 0
    | _, _, _, _, _ => none
  | [y1, y2, y3, y4, '-', m1, m2, '-', d1, d2, ' ', h1, h2, ':', n1, n2,
      ':', s1, s2] =>
    match num4 y1 y2 y3 y4, num2 m1 m2, num2 d1 d2, num2 h1 h2, num2 n1 n2,
        num2 s1 s2 with
    | some y, some mo, some d, some h, some mi, some sec =>
        mkPyDateTime y mo d h mi sec
    | _, _, _, _, _, _ => none
  | _ => none

/-- `params.launch_date.replace("T", " ")` (src/main.py line 97): the pattern
is the single character `T`, so the replacement is a character map. -/
def replaceTbySpace (s : String) : String :=
  String.mk (s.data.map (fun c => if c = 'T' then ' ' else c))

/-- Line 97: parse the launch date after replacing `T` by a space. -/
def parseLaunchDate (s : String) : Option PyDateTime :=
  pyFromIsoFormat (replaceTbySpace s)

/-- Line 92: `OPTIMAL_LAUNCH_DATE = datetime(2025, 10, 30, 10, 0)`. -/
def OPTIMAL_LAUNCH_DATE : PyDateTime := ⟨2025, 10, 30, 10, 0, 0⟩

/-- Lines 96-99: the parsed launch date, falling back to
`OPTIMAL_LAUNCH_DATE` when parsing fails. -/
def effectiveLaunchDate (s : String) : PyDateTime :=
  (parseLaunchDate s).getD OPTIMAL_LAUNCH_DATE

/-- Line 90: `ATLAS_VELOCITY = 60.0`. -/
def ATLAS_VELOCITY : ℚ := 60.0

/-- Line 91: `EARTH_ORBITAL_VELOCITY = 30.0`. -/
def EARTH_ORBITAL_VELOCITY : ℚ := 30.0

/-- Line 93: `ATLAS_PERIHELION_DISTANCE = 1.4`. -/
def ATLAS_PERIHELION_DISTANCE : ℚ := 1.4

/-- Line 94: `ATLAS_CLOSEST_EARTH_DISTANCE = 1.8`. -/
def ATLAS_CLOSEST_EARTH_DISTANCE : ℚ := 1.8

/-- Line 101: `days_diff = abs((launch_date - OPTIMAL_LAUNCH_DATE).days)`.
Python's `timedelta.days` is the floor of the difference in days
(`timedelta` normalizes with `0 <= seconds < 86400`), hence `Int.fdiv`. -/
def days_diff (ld : PyDateTime) : ℕ :=
  ((toSeconds ld - toSeconds OPTIMAL_LAUNCH_DATE).fdiv 86400).natAbs

/-- Line 102: `time_from_perihelion = days_diff / 365.25`. -/
def time_from_perihelion (d : ℕ) : ℚ := (d : ℚ) / 365.25

/-- Line 103: `current_distance = ATLAS_PERIHELION_DISTANCE + abs(time_from_perihelion) * 2.0`. -/
def current_distance (d : ℕ) : ℚ :=
  ATLAS_PERIHELION_DISTANCE + |time_from_perihelion d| * 2.0

/-- Line 106: `base_delta_v = 15.0 + (current_distance - ATLAS_CLOSEST_EARTH_DISTANCE) * 5.0`. -/
def base_delta_v (d : ℕ) : ℚ :=
  15.0 + (current_distance d - ATLAS_CLOSEST_EARTH_DISTANCE) * 5.0

/-- Line 107: `base_travel_time = 2.0 + (current_distance - ATLAS_CLOSEST_EARTH_DISTANCE) * 1.5`. -/
def base_travel_time (d : ℕ) : ℚ :=
  2.0 + (current_distance d - ATLAS_CLOSEST_EARTH_DISTANCE) * 1.5

/-- Line 108: `base_success = max(0.05, 0.8 - (current_distance - ATLAS_CLOSEST_EARTH_DISTANCE) * 0.2)`. -/
def base_success (d : ℕ) : ℚ :=
  max 0.05 (0.8 - (current_distance d - ATLAS_CLOSEST_EARTH_DISTANCE) * 0.2)

/-- One row of the `propulsion_modifiers` table (src/main.py lines 110-114). -/
structure PropulsionModifiers where
  delta_v_mult : ℚ
  time_mult : ℚ
  success_mod : ℚ
  fuel_efficiency : ℚ
  max_delta_v : ℚ
deriving DecidableEq

/-- One row of the `payload_modifiers` table (src/main.py lines 116-120). -/
structure PayloadModifiers where
  delta_v_mult : ℚ
  time_mult : ℚ
  success_mod : ℚ
deriving DecidableEq

/-- Lines 110-114: the static propulsion table. -/
def propulsion_modifiers : PropulsionType → PropulsionModifiers
  | .chemical => ⟨1.0, 0.8, -0.4, 0.3, 15.0⟩
  | .ion => ⟨0.7, 1.5, -0.2, 0.8, 25.0⟩
  | .solarSail => ⟨0.4, 3.0, -0.6, 1.0, 10.0⟩

/-- Lines 116-120: the static payload table. -/
def payload_modifiers : PayloadSize → PayloadModifiers
  | .small => ⟨0.9, 0.9, 0.1⟩
  | .medium => ⟨1.0, 1.0, 0.0⟩
  | .large => ⟨1.3, 1.3, -0.1⟩

/-- Line 125: `date_penalty = min(days_diff / 30.0, 1.0)`. -/
def date_penalty (d : ℕ) : ℚ := min ((d : ℚ) / 30.0) 1.0

/-- Line 127: `delta_v = base_delta_v * prop delta_v_mult * payload delta_v_mult * (1 + date_penalty * 0.2)`. -/
def delta_v (d : ℕ) (pt : PropulsionType) (pl : PayloadSize) : ℚ :=
  base_delta_v d * (propulsion_modifiers pt).delta_v_mult
    * (payload_modifiers pl).delta_v_mult * (1 + date_penalty d * 0.2)

/-- Line 128: `velocity_matching_requirement = ATLAS_VELOCITY - EARTH_ORBITAL_VELOCITY`. -/
def velocity_matching_requirement : ℚ := ATLAS_VELOCITY - EARTH_ORBITAL_VELOCITY

/-- Line 129: `total_delta_v = delta_v + velocity_matching_requirement`. -/
def total_delta_v (d : ℕ) (pt : PropulsionType) (pl : PayloadSize) : ℚ :=
  delta_v d pt pl + velocity_matching_requirement

/-- Line 131: `travel_time = base_travel_time * prop time_mult * payload time_mult * (1 + date_penalty * 0.1)`. -/
def travel_time (d : ℕ) (pt : PropulsionType) (pl : PayloadSize) : ℚ :=
  base_travel_time d * (propulsion_modifiers pt).time_mult
    * (payload_modifiers pl).time_mult * (1 + date_penalty d * 0.1)

/-- Line 133: `excess_dv_ratio = max(0.0, (total_delta_v - max_delta_v) / max_delta_v)`. -/
def excess_dv_ratio (d : ℕ) (pt : PropulsionType) (pl : PayloadSize) : ℚ :=
  max 0.0 ((total_delta_v d pt pl - (propulsion_modifiers pt).max_delta_v)
    / (propulsion_modifiers pt).max_delta_v)

/-- Lines 134-136: `success_probability = max(0.01, min(0.95, base_success * (1 - 0.5 * excess_dv_ratio) + prop success_mod + payload success_mod - date_penalty * 0.2))`. -/
def success_probability (d : ℕ) (pt : PropulsionType) (pl : PayloadSize) : ℚ :=
  max 0.01 (min 0.95
    (base_success d * (1 - 0.5 * excess_dv_ratio d pt pl)
      + (propulsion_modifiers pt).success_mod
      + (payload_modifiers pl).success_mod - date_penalty d * 0.2))

/-- Line 138: `fuel_cost = delta_v * (1 / fuel_efficiency) * (1 + payload delta_v_mult - 1)`,
kept in the source's unreduced form. -/
def fuel_cost (d : ℕ) (pt : PropulsionType) (pl : PayloadSize) : ℚ :=
  delta_v d pt pl * (1 / (propulsion_modifiers pt).fuel_efficiency)
    * (1 + (payload_modifiers pl).delta_v_mult - 1)

/-- Lines 148-153: status thresholds of the normal path. -/
def statusOf (p : ℚ) : String :=
  if p ≥ 0.8 then "success" else if p ≥ 0.6 then "warning" else "failure"

/-- `"chemical".title()` and friends: Python title-cases each hyphen-separated
word of the enum's string value. -/
def PropulsionType.titleName : PropulsionType → String
  | .chemical => "Chemical"
  | .ion => "Ion"
  | .solarSail => "Solar-Sail"

/-- `"small".title()` and friends. -/
def PayloadSize.titleName : PayloadSize → String
  | .small => "Small"
  | .medium => "Medium"
  | .large => "Large"

/-- Python's `:.1f` on the exact rational value: one decimal digit, rounding
to nearest (the float detour of the source is approximated by exact decimal
rounding; no claim inspects these digits). -/
def fmtFixed1 (q : ℚ) : String :=
  let n : ℤ := round (10 * q)
  let sign := if n < 0 then "-" else ""
  let m := n.natAbs
  sign ++ toString (m / 10) ++ "." ++ toString (m % 10)

/-- Python's `:.1%`: the value times 100, formatted to one decimal, then `%`. -/
def fmtPercent1 (q : ℚ) : String :=
  fmtFixed1 (100 * q) ++ "%"

/-- Lines 155-163: the normal-path mission log. -/
def normal_log (params : MissionParameters) (tt tdv fc sp : ℚ) : List String :=
  ["Launch date: " ++ params.launch_date,
   "Propulsion: " ++ params.propulsion_type.titleName,
   "Payload: " ++ params.payload_size.titleName,
   "Estimated travel time: " ++ fmtFixed1 tt ++ " years",
   "Total ΔV required: " ++ fmtFixed1 tdv ++ " km/s",
   "Fuel cost estimate: " ++ fmtFixed1 fc ++ " units",
   "Success probability: " ++ fmtPercent1 sp]

/-- Lines 143-146: the hard-failure override log. -/
def failure_log (params : MissionParameters) : List String :=
  ["❌ Mission IMPOSSIBLE: Launch after 2026",
   "Launch date: " ++ params.launch_date]

/-- src/main.py lines 89-172: the Mission Evaluator
`calculate_mission_parameters`. All numeric intermediates are computed
before the year branch, exactly as in the source; the branch decides only
`mission_status`, `success_probability` and `mission_log`. -/
def calculate_mission_parameters (params : MissionParameters) : MissionResults :=
  let launch_date := effectiveLaunchDate params.launch_date
  let d := days_diff launch_date
  let pt := params.propulsion_type
  let pl := params.payload_size
  if launch_date.year > 2026 then
    { travel_time := travel_time d pt pl
      delta_v := delta_v d pt pl
      success_probability := 0.0
      mission_log := failure_log params
      fuel_cost := fuel_cost d pt pl
      mission_status := "failure" }
  else
    { travel_time := travel_time d pt pl
      delta_v := delta_v d pt pl
      success_probability := success_probability d pt pl
      mission_log := normal_log params (travel_time d pt pl)
        (total_delta_v d pt pl) (fuel_cost d pt pl)
        (success_probability d pt pl)
      fuel_cost := fuel_cost d pt pl
      mission_status := statusOf (success_probability d pt pl) }

/-! ## Helper lemmas -/

/-- The evaluator on the normal path (parsed launch year at most 2026). -/
lemma calculate_of_year_le (params : MissionParameters)
    (h : (effectiveLaunchDate params.launch_date).year ≤ 2026) :
    calculate_mission_parameters params =
      { travel_time := travel_time (days_diff (effectiveLaunchDate params.launch_date))
          params.propulsion_type params.payload_size
        delta_v := delta_v (days_diff (effectiveLaunchDate params.launch_date))
          params.propulsion_type params.payload_size
        success_probability := success_probability
          (days_diff (effectiveLaunchDate params.launch_date))
          params.propulsion_type params.payload_size
        mission_log := normal_log params
          (travel_time (days_diff (effectiveLaunchDate params.launch_date))
            params.propulsion_type params.payload_size)
          (total_delta_v (days_diff (effectiveLaunchDate params.launch_date))
            params.propulsion_type params.payload_size)
          (fuel_cost (days_diff (effectiveLaunchDate params.launch_date))
            params.propulsion_type params.payload_size)
          (success_probability (days_diff (effectiveLaunchDate params.launch_date))
            params.propulsion_type params.payload_size)
        fuel_cost := fuel_cost (days_diff (effectiveLaunchDate params.launch_date))
          params.propulsion_type params.payload_size
        mission_status := statusOf (success_probability
          (days_diff (effectiveLaunchDate params.launch_date))
          params.propulsion_type params.payload_size) } := by
  simp only [calculate_mission_parameters]
  rw [if_neg (by omega)]

/-- The evaluator on the hard-failure path (parsed launch year above 2026). -/
lemma calculate_of_year_gt (params : MissionParameters)
    (h : 2026 < (effectiveLaunchDate params.launch_date).year) :
    calculate_mission_parameters params =
      { travel_time := travel_time (days_diff (effectiveLaunchDate params.launch_date))
          params.propulsion_type params.payload_size
        delta_v := delta_v (days_diff (effectiveLaunchDate params.launch_date))
          params.propulsion_type params.payload_size
        success_probability := 0.0
        mission_log := failure_log params
        fuel_cost := fuel_cost (days_diff (effectiveLaunchDate params.launch_date))
          params.propulsion_type params.payload_size
        mission_status := "failure" } := by
  simp only [calculate_mission_parameters]
  rw [if_pos (by omega)]

/-- Both branches return the same `travel_time`. -/
lemma calc_travel_time (params : MissionParameters) :
    (calculate_mission_parameters params).travel_time =
      travel_time (days_diff (effectiveLaunchDate params.launch_date))
        params.propulsion_type params.payload_size := by
  simp only [calculate_mission_parameters]
  split <;> rfl

/-- Both branches return the same `delta_v`. -/
lemma calc_delta_v (params : MissionParameters) :
    (calculate_mission_parameters params).delta_v =
      delta_v (days_diff (effectiveLaunchDate params.launch_date))
        params.propulsion_type params.payload_size := by
  simp only [calculate_mission_parameters]
  split <;> rfl

/-- Both branches return the same `fuel_cost`. -/
lemma calc_fuel_cost (params : MissionParameters) :
    (calculate_mission_parameters params).fuel_cost =
      fuel_cost (days_diff (effectiveLaunchDate params.launch_date))
        params.propulsion_type params.payload_size := by
  simp only [calculate_mission_parameters]
  split <;> rfl

/-- The clamp of lines 134-136 lands in the closed interval. -/
lemma success_probability_mem (d : ℕ) (pt : PropulsionType) (pl : PayloadSize) :
    0.01 ≤ success_probability d pt pl ∧ success_probability d pt pl ≤ 0.95 := by
  unfold success_probability
  exact ⟨le_max_left _ _, max_le (by norm_num) (min_le_left _ _)⟩

unseal Rat.ofScientific Rat.mul Rat.inv Rat.add Rat.sub

set_option maxRecDepth 100000

set_option maxHeartbeats 2000000 in
/-- One-step monotonicity of the clamped success probability in `days_diff`,
for offsets below the 30-day penalty cap. -/
lemma success_probability_step (pt : PropulsionType) (pl : PayloadSize) :
    ∀ d, d < 30 → success_probability (d + 1) pt pl ≤ success_probability d pt pl := by
  cases pt <;> cases pl <;> decide

/-- The clamped success probability is non-increasing in `days_diff` on `[0, 30]`. -/
lemma success_probability_antitone (pt : PropulsionType) (pl : PayloadSize)
    (d1 d2 : ℕ) (h12 : d1 ≤ d2) :
    d2 ≤ 30 → success_probability d2 pt pl ≤ success_probability d1 pt pl := by
  induction d2, h12 using Nat.le_induction with
  | base => intro _; exact le_refl _
  | succ n hn ih =>
    intro h30
    exact le_trans (success_probability_step pt pl n (by omega)) (ih (by omega))

/-- `days_diff` is never negative time: the cast of the day count is nonnegative. -/
lemma time_from_perihelion_nonneg (d : ℕ) : 0 ≤ time_from_perihelion d := by
  unfold time_from_perihelion
  positivity

/-- `base_delta_v` is at least 13. -/
lemma base_delta_v_ge (d : ℕ) : 13 ≤ base_delta_v d := by
  unfold base_delta_v current_distance ATLAS_PERIHELION_DISTANCE ATLAS_CLOSEST_EARTH_DISTANCE
  rw [abs_of_nonneg (time_from_perihelion_nonneg d)]
  have h := time_from_perihelion_nonneg d
  norm_num
  nlinarith

/-- `base_travel_time` is at least 1.4. -/
lemma base_travel_time_ge (d : ℕ) : 1.4 ≤ base_travel_time d := by
  unfold base_travel_time current_distance ATLAS_PERIHELION_DISTANCE ATLAS_CLOSEST_EARTH_DISTANCE
  rw [abs_of_nonneg (time_from_perihelion_nonneg d)]
  have h := time_from_perihelion_nonneg d
  norm_num
  nlinarith

/-- The date penalty is nonnegative. -/
lemma date_penalty_nonneg (d : ℕ) : 0 ≤ date_penalty d := by
  unfold date_penalty
  have h : (0 : ℚ) ≤ (d : ℚ) / 30.0 := by positivity
  exact le_min h (by norm_num)

/-- The scaled `delta_v` output is strictly positive. -/
lemma delta_v_pos (d : ℕ) (pt : PropulsionType) (pl : PayloadSize) :
    0 < delta_v d pt pl := by
  have h1 := base_delta_v_ge d
  have h2 := date_penalty_nonneg d
  unfold delta_v
  cases pt <;> cases pl <;>
    simp only [propulsion_modifiers, payload_modifiers] <;> nlinarith

/-- The `travel_time` output is strictly positive. -/
lemma travel_time_pos (d : ℕ) (pt : PropulsionType) (pl : PayloadSize) :
    0 < travel_time d pt pl := by
  have h1 := base_travel_time_ge d
  have h2 := date_penalty_nonneg d
  unfold travel_time
  cases pt <;> cases pl <;>
    simp only [propulsion_modifiers, payload_modifiers] <;> nlinarith

/-- The `fuel_cost` output is strictly positive. -/
lemma fuel_cost_pos (d : ℕ) (pt : PropulsionType) (pl : PayloadSize) :
    0 < fuel_cost d pt pl := by
  have h1 := delta_v_pos d pt pl
  unfold fuel_cost
  cases pt <;> cases pl <;>
    simp only [propulsion_modifiers, payload_modifiers] <;> nlinarith

/-! ## Claims -/

/-- C1: for every valid `MissionParameters` input (any launch_date string,
any propulsion and payload enum values), the returned `success_probability`
lies in `[0.01, 0.95]`, except when the parsed launch year (after the
fallback of lines 96-99) exceeds 2026, in which case it is exactly `0.0`. -/
theorem C1_success_probability_clamped (params : MissionParameters) :
    ((effectiveLaunchDate params.launch_date).year ≤ 2026 →
      0.01 ≤ (calculate_mission_parameters params).success_probability ∧
        (calculate_mission_parameters params).success_probability ≤ 0.95) ∧
    (2026 < (effectiveLaunchDate params.launch_date).year →
      (calculate_mission_parameters params).success_probability = 0.0) := by
  constructor
  · intro h
    rw [calculate_of_year_le params h]
    exact success_probability_mem _ _ _
  · intro h
    rw [calculate_of_year_gt params h]

/-- Witness for C1 at concrete inputs on both sides of the year threshold. -/
theorem C1_witness :
    (0.01 ≤ (calculate_mission_parameters ⟨"2025-11-15", .ion, .small⟩).success_probability ∧
      (calculate_mission_parameters ⟨"2025-11-15", .ion, .small⟩).success_probability ≤ 0.95) ∧
    (calculate_mission_parameters ⟨"2027-03-04", .solarSail, .large⟩).success_probability = 0.0 :=
  ⟨(C1_success_probability_clamped ⟨"2025-11-15", .ion, .small⟩).1 (by decide),
   (C1_success_probability_clamped ⟨"2027-03-04", .solarSail, .large⟩).2 (by decide)⟩

/-- C2: when the parsed launch year exceeds 2026 the evaluator returns
`mission_status = "failure"`, `success_probability = 0.0`, and a mission log
of exactly the 2 override entries (the impossibility message and a line
echoing the raw input `launch_date` string), for every propulsion and
payload; the normal log is not produced. -/
theorem C2_hard_failure_override (params : MissionParameters)
    (h : 2026 < (effectiveLaunchDate params.launch_date).year) :
    (calculate_mission_parameters params).mission_status = "failure" ∧
    (calculate_mission_parameters params).success_probability = 0.0 ∧
    (calculate_mission_parameters params).mission_log =
      ["❌ Mission IMPOSSIBLE: Launch after 2026",
       "Launch date: " ++ params.launch_date] ∧
    (calculate_mission_parameters params).mission_log.length = 2 := by
  rw [calculate_of_year_gt params h]
  exact ⟨rfl, rfl, rfl, rfl⟩

/-- Witness for C2 at a 2027 launch date. -/
theorem C2_witness :
    (calculate_mission_parameters ⟨"2027-01-01", .chemical, .small⟩).mission_status = "failure" ∧
    (calculate_mission_parameters ⟨"2027-01-01", .chemical, .small⟩).success_probability = 0.0 ∧
    (calculate_mission_parameters ⟨"2027-01-01", .chemical, .small⟩).mission_log =
      ["❌ Mission IMPOSSIBLE: Launch after 2026", "Launch date: " ++ "2027-01-01"] ∧
    (calculate_mission_parameters ⟨"2027-01-01", .chemical, .small⟩).mission_log.length = 2 :=
  C2_hard_failure_override ⟨"2027-01-01", .chemical, .small⟩ (by decide)

/-- C3: the worked example — launch 2025-10-30T10:00:00, chemical, medium —
gives days_diff 0, current_distance 1.4, base_delta_v 13.0,
base_travel_time 1.4, base_success 0.88, delta_v 13.0, total_delta_v 43.0,
travel_time 1.12, excess_dv_ratio (43-15)/15, a raw (pre-clamp) probability
that is negative, hence success_probability 0.01 and status "failure". -/
theorem C3_worked_example :
    days_diff (effectiveLaunchDate ("2025-10-30T10:00:00")) = 0 ∧
    current_distance 0 = 1.4 ∧
    base_delta_v 0 = 13.0 ∧
    base_travel_time 0 = 1.4 ∧
    base_success 0 = 0.88 ∧
    delta_v 0 .chemical .medium = 13.0 ∧
    total_delta_v 0 .chemical .medium = 43.0 ∧
    travel_time 0 .chemical .medium = 1.12 ∧
    excess_dv_ratio 0 .chemical .medium = (43.0 - 15.0) / 15.0 ∧
    (base_success 0 * (1 - 0.5 * excess_dv_ratio 0 .chemical .medium)
      + (propulsion_modifiers .chemical).success_mod
      + (payload_modifiers .medium).success_mod - date_penalty 0 * 0.2 < 0) ∧
    (calculate_mission_parameters ⟨"2025-10-30T10:00:00", .chemical, .medium⟩).success_probability = 0.01 ∧
    (calculate_mission_parameters ⟨"2025-10-30T10:00:00", .chemical, .medium⟩).mission_status = "failure" := by
  decide

/-- C4: on the normal path (parsed launch year at most 2026) the returned
status is derived solely from the returned success probability by the
thresholds of lines 148-153. -/
theorem C4_status_from_probability (params : MissionParameters)
    (h : (effectiveLaunchDate params.launch_date).year ≤ 2026) :
    (calculate_mission_parameters params).mission_status =
      (if (calculate_mission_parameters params).success_probability ≥ 0.8 then "success"
       else if (calculate_mission_parameters params).success_probability ≥ 0.6 then "warning"
       else "failure") := by
  rw [calculate_of_year_le params h]
  rfl

/-- Witness for C4 at a concrete pre-2027 input. -/
theorem C4_witness :
    (calculate_mission_parameters ⟨"2025-12-01", .ion, .small⟩).mission_status =
      (if (calculate_mission_parameters ⟨"2025-12-01", .ion, .small⟩).success_probability ≥ 0.8 then "success"
       else if (calculate_mission_parameters ⟨"2025-12-01", .ion, .small⟩).success_probability ≥ 0.6 then "warning"
       else "failure") :=
  C4_status_from_probability ⟨"2025-12-01", .ion, .small⟩ (by decide)

/-- C5: when the launch_date string fails to parse, the evaluator substitutes
the fixed optimal launch instant (`days_diff = 0`) and completes the normal
computation: every returned field equals the one for the optimal date string,
except that the mission log's first line echoes the raw input string. -/
theorem C5_parse_fallback (params : MissionParameters)
    (h : parseLaunchDate params.launch_date = none) :
    days_diff (effectiveLaunchDate params.launch_date) = 0 ∧
    (calculate_mission_parameters params).travel_time =
      (calculate_mission_parameters
        ⟨"2025-10-30T10:00:00", params.propulsion_type, params.payload_size⟩).travel_time ∧
    (calculate_mission_parameters params).delta_v =
      (calculate_mission_parameters
        ⟨"2025-10-30T10:00:00", params.propulsion_type, params.payload_size⟩).delta_v ∧
    (calculate_mission_parameters params).success_probability =
      (calculate_mission_parameters
        ⟨"2025-10-30T10:00:00", params.propulsion_type, params.payload_size⟩).success_probability ∧
    (calculate_mission_parameters params).fuel_cost =
      (calculate_mission_parameters
        ⟨"2025-10-30T10:00:00", params.propulsion_type, params.payload_size⟩).fuel_cost ∧
    (calculate_mission_parameters params).mission_status =
      (calculate_mission_parameters
        ⟨"2025-10-30T10:00:00", params.propulsion_type, params.payload_size⟩).mission_status ∧
    (calculate_mission_parameters params).mission_log =
      ("Launch date: " ++ params.launch_date) ::
        (calculate_mission_parameters
          ⟨"2025-10-30T10:00:00", params.propulsion_type, params.payload_size⟩).mission_log.tail := by
  have heff : effectiveLaunchDate params.launch_date = OPTIMAL_LAUNCH_DATE := by
    unfold effectiveLaunchDate
    rw [h]
    rfl
  have hy : (effectiveLaunchDate params.launch_date).year ≤ 2026 := by
    rw [heff]
    decide
  rw [calculate_of_year_le params hy,
    calculate_of_year_le ⟨"2025-10-30T10:00:00", params.propulsion_type,
      params.payload_size⟩
      (by show (effectiveLaunchDate ("2025-10-30T10:00:00")).year ≤ 2026
          decide)]
  have heff0 : effectiveLaunchDate
      ((⟨"2025-10-30T10:00:00", params.propulsion_type,
        params.payload_size⟩ : MissionParameters).launch_date) = OPTIMAL_LAUNCH_DATE := by
    show effectiveLaunchDate ("2025-10-30T10:00:00") = OPTIMAL_LAUNCH_DATE
    decide
  rw [heff, heff0]
  exact ⟨by decide, rfl, rfl, rfl, rfl, rfl, rfl⟩

/-- Witness for C5 at the unparseable string of the spec's example. -/
theorem C5_witness :
    days_diff (effectiveLaunchDate ("not-a-date")) = 0 ∧
    (calculate_mission_parameters ⟨"not-a-date", .chemical, .medium⟩).travel_time =
      (calculate_mission_parameters ⟨"2025-10-30T10:00:00", .chemical, .medium⟩).travel_time ∧
    (calculate_mission_parameters ⟨"not-a-date", .chemical, .medium⟩).delta_v =
      (calculate_mission_parameters ⟨"2025-10-30T10:00:00", .chemical, .medium⟩).delta_v ∧
    (calculate_mission_parameters ⟨"not-a-date", .chemical, .medium⟩).success_probability =
      (calculate_mission_parameters ⟨"2025-10-30T10:00:00", .chemical, .medium⟩).success_probability ∧
    (calculate_mission_parameters ⟨"not-a-date", .chemical, .medium⟩).fuel_cost =
      (calculate_mission_parameters ⟨"2025-10-30T10:00:00", .chemical, .medium⟩).fuel_cost ∧
    (calculate_mission_parameters ⟨"not-a-date", .chemical, .medium⟩).mission_status =
      (calculate_mission_parameters ⟨"2025-10-30T10:00:00", .chemical, .medium⟩).mission_status ∧
    (calculate_mission_parameters ⟨"not-a-date", .chemical, .medium⟩).mission_log =
      ("Launch date: " ++ "not-a-date") ::
        (calculate_mission_parameters ⟨"2025-10-30T10:00:00", .chemical, .medium⟩).mission_log.tail :=
  C5_parse_fallback ⟨"not-a-date", .chemical, .medium⟩ (by decide)

/-- C6: for fixed propulsion and payload, and launch dates on the normal path
whose offset from the optimal date is at most 30 days, the returned success
probability is non-increasing in `days_diff`. -/
theorem C6_success_probability_antitone (p1 p2 : MissionParameters)
    (hpt : p1.propulsion_type = p2.propulsion_type)
    (hpl : p1.payload_size = p2.payload_size)
    (hy1 : (effectiveLaunchDate p1.launch_date).year ≤ 2026)
    (hy2 : (effectiveLaunchDate p2.launch_date).year ≤ 2026)
    (hd : days_diff (effectiveLaunchDate p1.launch_date) ≤
      days_diff (effectiveLaunchDate p2.launch_date))
    (hd30 : days_diff (effectiveLaunchDate p2.launch_date) ≤ 30) :
    (calculate_mission_parameters p2).success_probability ≤
      (calculate_mission_parameters p1).success_probability := by
  rw [calculate_of_year_le p1 hy1, calculate_of_year_le p2 hy2, hpt, hpl]
  exact success_probability_antitone _ _ _ _ hd hd30

/-- Witness for C6: offsets 0 and 10 days with chemical/medium. -/
theorem C6_witness :
    (calculate_mission_parameters ⟨"2025-11-10", .chemical, .medium⟩).success_probability ≤
      (calculate_mission_parameters ⟨"2025-10-30T10:00:00", .chemical, .medium⟩).success_probability :=
  C6_success_probability_antitone
    ⟨"2025-10-30T10:00:00", .chemical, .medium⟩ ⟨"2025-11-10", .chemical, .medium⟩
    rfl rfl (by decide) (by decide) (by decide) (by decide)

/-- C7: `fuel_cost` equals `delta_v` times the fixed positive constant
`(1 / fuel_efficiency) * payload delta_v_mult`; the source's
`(1 + delta_v_mult - 1)` factor is interchangeable with `delta_v_mult`. -/
theorem C7_fuel_cost_linear (params : MissionParameters) :
    (calculate_mission_parameters params).fuel_cost =
      (calculate_mission_parameters params).delta_v
        * (1 / (propulsion_modifiers params.propulsion_type).fuel_efficiency)
        * (payload_modifiers params.payload_size).delta_v_mult ∧
    (1 + (payload_modifiers params.payload_size).delta_v_mult - 1
      = (payload_modifiers params.payload_size).delta_v_mult) ∧
    0 < (1 / (propulsion_modifiers params.propulsion_type).fuel_efficiency)
        * (payload_modifiers params.payload_size).delta_v_mult := by
  refine ⟨?_, by ring, ?_⟩
  · rw [calc_fuel_cost params, calc_delta_v params]
    unfold fuel_cost
    ring
  · rcases params with ⟨s, pt, pl⟩
    dsimp only
    cases pt <;> cases pl <;> norm_num [propulsion_modifiers, payload_modifiers]

/-- C8 counterexample: the instant 2025-10-30T09:00:00 parses, is strictly
less than one day away from the optimal instant (one hour before it), yet
`days_diff` is 1, not 0 — Python floors the signed difference before `abs`. -/
theorem C8_counterexample :
    parseLaunchDate ("2025-10-30T09:00:00") = some ⟨2025, 10, 30, 9, 0, 0⟩ ∧
    (toSeconds ⟨2025, 10, 30, 9, 0, 0⟩ - toSeconds OPTIMAL_LAUNCH_DATE).natAbs < 86400 ∧
    days_diff ⟨2025, 10, 30, 9, 0, 0⟩ ≠ 0 ∧
    days_diff ⟨2025, 10, 30, 9, 0, 0⟩ = 1 := by
  decide

/-- C8 (amended): `days_diff` is the absolute value of the floored signed
difference in days: instants from the optimal instant up to (excluding) one
day after it give 0 and, more generally, instants at or after the optimal
instant give the truncated difference in days, while any instant strictly
before the optimal instant — however close — gives at least 1. -/
theorem C8_days_diff_floored (ld : PyDateTime) :
    (toSeconds OPTIMAL_LAUNCH_DATE ≤ toSeconds ld →
      days_diff ld = ((toSeconds ld - toSeconds OPTIMAL_LAUNCH_DATE) / 86400).toNat) ∧
    (toSeconds ld < toSeconds OPTIMAL_LAUNCH_DATE → 1 ≤ days_diff ld) := by
  unfold days_diff
  rw [Int.fdiv_eq_ediv _ (by norm_num)]
  constructor
  · intro h
    omega
  · intro h
    omega

/-- Witness for C8's amended statement, one instant on each side of the
optimal instant. -/
theorem C8_days_diff_floored_witness :
    days_diff ⟨2025, 11, 5, 10, 0, 0⟩ =
      ((toSeconds ⟨2025, 11, 5, 10, 0, 0⟩ - toSeconds OPTIMAL_LAUNCH_DATE) / 86400).toNat ∧
    1 ≤ days_diff ⟨2025, 10, 30, 9, 59, 59⟩ :=
  ⟨(C8_days_diff_floored ⟨2025, 11, 5, 10, 0, 0⟩).1 (by decide),
   (C8_days_diff_floored ⟨2025, 10, 30, 9, 59, 59⟩).2 (by decide)⟩

/-- C9: even under the hard-failure override, the returned `travel_time`,
`delta_v` and `fuel_cost` are exactly the normal-formula values for the
input; the override changes only status, probability and log. -/
theorem C9_override_frame (params : MissionParameters)
    (h : 2026 < (effectiveLaunchDate params.launch_date).year) :
    (calculate_mission_parameters params).travel_time =
      travel_time (days_diff (effectiveLaunchDate params.launch_date))
        params.propulsion_type params.payload_size ∧
    (calculate_mission_parameters params).delta_v =
      delta_v (days_diff (effectiveLaunchDate params.launch_date))
        params.propulsion_type params.payload_size ∧
    (calculate_mission_parameters params).fuel_cost =
      fuel_cost (days_diff (effectiveLaunchDate params.launch_date))
        params.propulsion_type params.payload_size := by
  rw [calculate_of_year_gt params h]
  exact ⟨rfl, rfl, rfl⟩

/-- Witness for C9 at a 2027 launch date. -/
theorem C9_witness :
    (calculate_mission_parameters ⟨"2027-06-15", .ion, .large⟩).travel_time =
      travel_time (days_diff (effectiveLaunchDate ("2027-06-15"))) .ion .large ∧
    (calculate_mission_parameters ⟨"2027-06-15", .ion, .large⟩).delta_v =
      delta_v (days_diff (effectiveLaunchDate ("2027-06-15"))) .ion .large ∧
    (calculate_mission_parameters ⟨"2027-06-15", .ion, .large⟩).fuel_cost =
      fuel_cost (days_diff (effectiveLaunchDate ("2027-06-15"))) .ion .large :=
  C9_override_frame ⟨"2027-06-15", .ion, .large⟩ (by decide)

/-- C10: for every input the returned `travel_time`, `delta_v` and
`fuel_cost` are strictly positive. -/
theorem C10_outputs_positive (params : MissionParameters) :
    0 < (calculate_mission_parameters params).travel_time ∧
    0 < (calculate_mission_parameters params).delta_v ∧
    0 < (calculate_mission_parameters params).fuel_cost := by
  rw [calc_travel_time params, calc_delta_v params, calc_fuel_cost params]
  exact ⟨travel_time_pos _ _ _, delta_v_pos _ _ _, fuel_cost_pos _ _ _⟩
